import Mathlib

/-!
Shallow embedding of the `webview2` Rust binding (`src/lib.rs`): status-code
handling, string conversion at the FFI boundary, the wrapper macro shapes
(`get_bool!`, `put_bool!`, `get_string!`, `put_string!`), the one-shot
completion handlers, the HTTP-header iterator, and `Stream::from_bytes`.

Machine integers are embedded as `Nat` (unsigned 32-bit values) and `Int`
(signed 32-bit `HRESULT` values), with two's-complement reinterpretation
made explicit.  Rust panics are modelled by `Option` (`none` = panic).
-/

namespace Webview2

/-- `HRESULT` values are 32-bit signed status codes, embedded as `Int`. -/
abbrev HRESULT := Int

/-- winapi constant `S_OK` (the canonical success code). -/
def S_OK : HRESULT := 0

/-- winapi constant `E_FAIL` (`0x80004005` read as a 32-bit signed value). -/
def E_FAIL : HRESULT := -2147467259

/-- winapi constant `E_INVALIDARG` (`0x80070057` read as a 32-bit signed value). -/
def E_INVALIDARG : HRESULT := -2147024809

/-- winapi constant `FACILITY_WIN32`. -/
def FACILITY_WIN32 : Int := 7

/-- winapi constant `SEVERITY_ERROR`. -/
def SEVERITY_ERROR : Int := 1

/-- Two's-complement reinterpretation of a `u32` bit pattern as an `i32`. -/
def i32ofU32 (x : Nat) : Int := if x < 2 ^ 31 then (x : Int) else (x : Int) - 2 ^ 32

/-- Two's-complement reinterpretation of an `i32` value as a `u32` bit pattern. -/
def u32ofI32 (x : Int) : Nat := (x % 2 ^ 32).toNat

/-- Bitwise and of two `i32` values (Rust `&` on `i32`). -/
def i32land (a b : Int) : Int := i32ofU32 (u32ofI32 a &&& u32ofI32 b)

/-- winapi `SUCCEEDED(hr)`: true iff `hr >= 0`. -/
def SUCCEEDED (hr : HRESULT) : Bool := decide (0 ≤ hr)

/-- The two's-complement sign bit of a 32-bit status code (bit 31 of its
`u32` bit pattern). -/
def signBit32 (s : Int) : Bool := decide (2 ^ 31 ≤ s % 2 ^ 32)

/-- `webview2::Error`: a newtype around the carried `HRESULT`
(`struct Error { hresult: HRESULT }`). -/
structure Error where
  hresult : HRESULT
deriving DecidableEq, Repr

/-- `Error::new(hresult)`. -/
def Error.new (hresult : HRESULT) : Error := ⟨hresult⟩

/-- Rust `Result<T, webview2::Error>` (`pub type Result<T> = std::result::Result<T, Error>`). -/
inductive Result (α : Type) where
  | ok : α → Result α
  | err : Error → Result α
deriving DecidableEq, Repr

/-- Rust `Result::ok()`: keep the success value, drop the error. -/
def Result.toOption {α : Type} : Result α → Option α
  | .ok a => some a
  | .err _ => none

/-- `check_hresult`: `Ok(())` when `SUCCEEDED(hresult)`, otherwise
`Err(Error { hresult })` carrying the code unchanged. -/
def check_hresult (hresult : HRESULT) : Result Unit :=
  if SUCCEEDED hresult then .ok () else .err ⟨hresult⟩

/-- `to_hresult`: `Ok(_) ↦ S_OK`, `Err(Error { hresult }) ↦ hresult`.  This is
the conversion applied to every host callback result before it crosses back
into native code. -/
def to_hresult {α : Type} (r : Result α) : HRESULT :=
  match r with
  | .ok _ => S_OK
  | .err e => e.hresult

/-- A host (Rust) string, modelled as its sequence of UTF-16 code units. -/
abbrev HostStr := List Nat

/-- widestring `NulError<u16>`: the error of building a wide C string from
input containing a nul code unit. -/
inductive NulError where
  | mk : NulError
deriving DecidableEq, Repr

/-- `impl From<NulError<u16>> for Error`: every nul error maps to
`E_INVALIDARG`. -/
def Error.fromNulError (_ : NulError) : Error := ⟨E_INVALIDARG⟩

/-- `WideCString::from_str`: encode to UTF-16 and nul-terminate; fails with
`NulError` iff the input contains an embedded nul code unit. -/
def wideCStringFromStr (s : HostStr) : Except NulError (List Nat) :=
  if s.contains 0 then .error .mk else .ok (s ++ [0])

/-- Well-formedness of a UTF-16 code-unit sequence: every high surrogate is
immediately followed by a low surrogate and no unpaired low surrogate
occurs.  This is the success condition of `WideCStr::to_string`
(`String::from_utf16` on Windows). -/
def utf16Valid : List Nat → Bool
  | [] => true
  | [u] => decide (¬(0xD800 ≤ u ∧ u ≤ 0xDFFF))
  | u :: v :: rest =>
    if 0xD800 ≤ u ∧ u ≤ 0xDBFF then
      decide (0xDC00 ≤ v ∧ v ≤ 0xDFFF) && utf16Valid rest
    else if 0xDC00 ≤ u ∧ u ≤ 0xDFFF then false
    else utf16Valid (v :: rest)

/-- `WideCStr::to_string`: decode the buffer; `none` models a decode failure
(`Utf16Error`).  The decoded host string is represented by its code units. -/
def wideToString (buf : List Nat) : Option HostStr :=
  if utf16Valid buf then some buf else none

/-- The `get_bool!` wrapper shape: `nativeStatus` is the `HRESULT` returned
by the native getter and `nativeValue` the `BOOL` (i32) it writes out; the
wrapper checks the status and then returns `enabled != 0`. -/
def get_bool (nativeStatus : HRESULT) (nativeValue : Int) : Result Bool :=
  match check_hresult nativeStatus with
  | .err e => .err e
  | .ok () => .ok (nativeValue != 0)

/-- The `put_bool!` wrapper shape: `true ↦ 1`, `false ↦ 0` is passed to the
native setter; the second component is the i32 value passed. -/
def put_bool (nativeStatus : HRESULT) (enabled : Bool) : Result Unit × Int :=
  let v : Int := if enabled then 1 else 0
  (check_hresult nativeStatus, v)

/-- The `put_string!` wrapper shape: convert the host string with
`WideCString::from_str` (the `?` operator maps `NulError` to `E_INVALIDARG`),
then call the native setter.  The second component lists the wide buffers
passed to native code (empty = the native call was never made). -/
def put_string (nativeStatus : HRESULT) (s : HostStr) : Result Unit × List (List Nat) :=
  match wideCStringFromStr s with
  | .error e => (.err (Error.fromNulError e), [])
  | .ok w => (check_hresult nativeStatus, [w])

/-- The `get_string!` wrapper shape: check the native status (early return on
failure), decode the returned wide buffer (`E_FAIL` on decode failure), and
free the buffer with `CoTaskMemFree` before returning.  The second component
records whether `CoTaskMemFree` was called on the buffer. -/
def get_string (nativeStatus : HRESULT) (buf : List Nat) : Result HostStr × Bool :=
  match check_hresult nativeStatus with
  | .err e => (.err e, false)
  | .ok () =>
    let result1 : Result HostStr :=
      match wideToString buf with
      | some s => .ok s
      | none => .err ⟨E_FAIL⟩
    (result1, true)

/-- `HttpHeadersCollectionIterator::get_current_header`: check the native
status, decode both returned buffers (each failure mapped to `E_FAIL`), free
both with `CoTaskMemFree`, then combine with `Ok((name1?, value1?))`.  The
second component records `(nameFreed, valueFreed)`. -/
def get_current_header (nativeStatus : HRESULT) (nameBuf valueBuf : List Nat) :
    Result (HostStr × HostStr) × (Bool × Bool) :=
  match check_hresult nativeStatus with
  | .err e => (.err e, (false, false))
  | .ok () =>
    let name1 : Result HostStr :=
      match wideToString nameBuf with
      | some s => .ok s
      | none => .err ⟨E_FAIL⟩
    let value1 : Result HostStr :=
      match wideToString valueBuf with
      | some s => .ok s
      | none => .err ⟨E_FAIL⟩
    let combined : Result (HostStr × HostStr) :=
      match name1, value1 with
      | .err e, _ => .err e
      | .ok _, .err e => .err e
      | .ok n, .ok v => .ok (n, v)
    (combined, (true, true))

/-- winapi `HRESULT_FROM_WIN32(x)` for a `u32` argument `x`: if `x` read as
an `i32` is `<= 0` it is returned unchanged, otherwise the low 16 bits of
`x` are combined with the Win32 facility and the error severity bit. -/
def HRESULT_FROM_WIN32 (x : Nat) : HRESULT :=
  if i32ofU32 x ≤ 0 then i32ofU32 x
  else i32ofU32 ((x &&& 0xFFFF ||| (7 <<< 16)) ||| 0x80000000)

/-- winapi `MAKE_HRESULT(sev, fac, code)`: `(sev << 31) | (fac << 16) | code`
in 32-bit unsigned arithmetic, read back as an `i32`. -/
def MAKE_HRESULT (sev fac code : Int) : HRESULT :=
  i32ofU32 (((u32ofI32 sev <<< 31 ||| u32ofI32 fac <<< 16) ||| u32ofI32 code) % 2 ^ 32)

/-- winapi `HRESULT_CODE(hr)`: `hr & 0xFFFF` (always a non-negative value). -/
def HRESULT_CODE (hr : HRESULT) : Int :=
  Int.ofNat (u32ofI32 hr &&& 0xFFFF)

/-- Model of `std::io::Error` as the binding observes it: either an error
carrying a raw OS error code (`raw_os_error() == Some n`) or an opaque error
of kind `Other` wrapping a `webview2::Error`
(`io::Error::new(io::ErrorKind::Other, e)`). -/
inductive IoError where
  | raw : Int → IoError
  | other : Error → IoError
deriving DecidableEq, Repr

/-- `io::Error::raw_os_error()`. -/
def IoError.rawOsError : IoError → Option Int
  | .raw n => some n
  | .other _ => none

/-- `impl From<io::Error> for Error`: an error with a raw OS code `n` maps to
`HRESULT_FROM_WIN32(n as u32)`; any other io error maps to `E_FAIL`. -/
def errorFromIoError (e : IoError) : Error :=
  match e.rawOsError with
  | some n => Error.new (HRESULT_FROM_WIN32 (u32ofI32 n))
  | none => Error.new E_FAIL

/-- `Error::into_io_error`: if the high 16 bits of the carried `HRESULT`
equal `MAKE_HRESULT(SEVERITY_ERROR, FACILITY_WIN32, 0)` (the Win32-facility
bit pattern `0x80070000`), recover the OS error code with `HRESULT_CODE`;
otherwise wrap the whole error as an opaque io error of kind `Other`. -/
def Error.into_io_error (e : Error) : IoError :=
  if i32land e.hresult (i32ofU32 0xFFFF0000) = MAKE_HRESULT SEVERITY_ERROR FACILITY_WIN32 0 then
    IoError.raw (HRESULT_CODE e.hresult)
  else
    IoError.other e

/-- One-shot completion handler created in `EnvironmentBuilder::build`
(`ICoreWebView2CreateCoreWebView2EnvironmentCompletedHandler`).
`closurePresent` models the `RefCell<Option<F>>` slot holding the host
closure (`true` = still present); `host` is the host closure, receiving the
checked result (the created `Environment` is abstracted to `()`).  The
result is `none` when the handler panics (`take()` returned `None`, so
`unwrap()` fails), otherwise `some` of: the `HRESULT` returned to native
code, the slot state afterwards, and the number of host-closure invocations
performed. -/
def buildHandlerInvoke (host : Result Unit → Result Unit)
    (closurePresent : Bool) (result : HRESULT) : Option (HRESULT × Bool × Nat) :=
  let r : Result Unit := check_hresult result
  if closurePresent then some (to_hresult (host r), false, 1) else none

/-- One-shot completion handler created in `Environment::create_controller`
(`ICoreWebView2CreateCoreWebView2ControllerCompletedHandler`); same
`take().unwrap()` shape as the `build` handler. -/
def createControllerHandlerInvoke (host : Result Unit → Result Unit)
    (closurePresent : Bool) (result : HRESULT) : Option (HRESULT × Bool × Nat) :=
  let r : Result Unit := check_hresult result
  if closurePresent then some (to_hresult (host r), false, 1) else none

/-- One-shot completion handler created in `WebView::capture_preview`
(`ICoreWebView2CapturePreviewCompletedHandler`): also
`handler.borrow_mut().take().unwrap()` followed by
`to_hresult(handler(check_hresult(result)))`. -/
def capturePreviewHandlerInvoke (host : Result Unit → Result Unit)
    (closurePresent : Bool) (result : HRESULT) : Option (HRESULT × Bool × Nat) :=
  if closurePresent then some (to_hresult (host (check_hresult result)), false, 1)
  else none

/-- One-shot completion handler created in `WebView::execute_script`
(`ICoreWebView2ExecuteScriptCompletedHandler`): check the status, decode the
result string (`E_FAIL` on decode failure), then `if let Some(callback) =
callback.borrow_mut().take() { callback(s) } else { Ok(()) }`.  Returns the
`HRESULT` handed back to native code, the slot state afterwards, and the
number of host-closure invocations performed; this handler never panics. -/
def executeScriptHandlerInvoke (host : HostStr → Result Unit)
    (closurePresent : Bool) (error_code : HRESULT) (buf : List Nat) :
    HRESULT × Bool × Nat :=
  match check_hresult error_code with
  | .err e => (to_hresult (Result.err e : Result Unit), closurePresent, 0)
  | .ok () =>
    match wideToString buf with
    | none => (to_hresult (Result.err ⟨E_FAIL⟩ : Result Unit), closurePresent, 0)
    | some s =>
      if closurePresent then (to_hresult (host s), false, 1)
      else (to_hresult (Result.ok () : Result Unit), false, 0)

/-- One-shot completion handler created in
`WebView::add_script_to_execute_on_document_created`
(`ICoreWebView2AddScriptToExecuteOnDocumentCreatedCompletedHandler`): the
same guarded shape as the `execute_script` handler, with the script id in
place of the JSON result. -/
def addScriptHandlerInvoke (host : HostStr → Result Unit)
    (closurePresent : Bool) (error_code : HRESULT) (buf : List Nat) :
    HRESULT × Bool × Nat :=
  match check_hresult error_code with
  | .err e => (to_hresult (Result.err e : Result Unit), closurePresent, 0)
  | .ok () =>
    match wideToString buf with
    | none => (to_hresult (Result.err ⟨E_FAIL⟩ : Result Unit), closurePresent, 0)
    | some s =>
      if closurePresent then (to_hresult (host s), false, 1)
      else (to_hresult (Result.ok () : Result Unit), false, 0)

/-- The native responses an `HttpHeadersCollectionIterator` observes during
one `next()` call: the results of `get_has_current_header`,
`get_current_header` and `move_next`. -/
structure IterNative where
  hasCurrentHeader : Result Bool
  currentHeader : Result (HostStr × HostStr)
  moveNextResult : Result Bool
deriving DecidableEq, Repr

/-- `impl Iterator for HttpHeadersCollectionIterator`: return `None` unless
`get_has_current_header()` is `Ok(true)`; otherwise take
`get_current_header().ok()`, call `move_next()` (discarding its result) and
return the optional header.  The second component records whether
`move_next` was called. -/
def iterNext (st : IterNative) : Option (HostStr × HostStr) × Bool :=
  if st.hasCurrentHeader ≠ Result.ok true then (none, false)
  else (st.currentHeader.toOption, true)

/-- `ComRc::from_raw`: wrap an owning raw pointer, performing no `AddRef`.
Pointers are modelled as `Nat` (`0` = null); the second component counts the
`AddRef` calls performed while wrapping. -/
def comRcFromRaw (p : Nat) : Nat × Nat := (p, 0)

/-- `add_ref_to_rc`: call `AddRef`, then wrap — one reference-count
increment performed while wrapping. -/
def add_ref_to_rc (p : Nat) : Nat × Nat := (p, 1)

/-- `Stream::from_bytes` as a function of the pointer returned by
`SHCreateMemStream`: `assert!(!ppv.is_null())` aborts on null (modelled as
`none`), otherwise the stream wraps the pointer via `ComRc::from_raw`. -/
def streamFromBytes (shCreateMemStreamResult : Nat) : Option (Nat × Nat) :=
  if shCreateMemStreamResult = 0 then none
  else some (comRcFromRaw shCreateMemStreamResult)

/-! ### Helper lemmas -/

/-- Masking a value below `2^16` with `0xFFFF` is the identity. -/
theorem and_mask16_of_lt (m : Nat) (hm : m < 65536) : m &&& 65535 = m := by
  have h := Nat.and_pow_two_sub_one_eq_mod m 16
  norm_num at h
  omega

/-- A value below `2^16` has no bits in the high half-word. -/
theorem and_high_mask_eq_zero (m : Nat) (hm : m < 65536) : m &&& 4294901760 = 0 := by
  calc m &&& 4294901760 = (m &&& 65535) &&& 4294901760 := by rw [and_mask16_of_lt m hm]
    _ = m &&& (65535 &&& 4294901760) := Nat.and_assoc m 65535 4294901760
    _ = m &&& 0 := by
      have hz : (65535 &&& 4294901760 : Nat) = 0 := by decide
      rw [hz]
    _ = 0 := Nat.and_zero m

/-- Or-ing `0x80070000` with a value below `2^16` is addition (the bit ranges
are disjoint). -/
theorem or_win32_pattern_eq_add (m : Nat) (hm : m < 65536) :
    2147942400 ||| m = 2147942400 + m := by
  have h := Nat.mul_add_lt_is_or (i := 16) (b := m) hm 32775
  norm_num at h
  omega

/-! ### Claim theorems -/

/-- Claim C2: for every 32-bit signed status `s`, `check_hresult s` returns
`Ok(())` iff the two's-complement sign bit of `s` is unset, and otherwise
returns an error carrying exactly `s`, unchanged. -/
theorem check_hresult_ok_iff_sign_bit_clear (s : Int)
    (h1 : -(2 ^ 31) ≤ s) (h2 : s < 2 ^ 31) :
    ((check_hresult s = Result.ok ()) ↔ signBit32 s = false)
    ∧ (signBit32 s = true → check_hresult s = Result.err ⟨s⟩) := by
  have hm : s % (2 ^ 32) = if 0 ≤ s then s else s + 2 ^ 32 := by
    have h32 : (2 : Int) ^ 32 = 4294967296 := by norm_num
    rw [h32]
    split <;> omega
  by_cases hs : 0 ≤ s
  · have hsb : signBit32 s = false := by
      simp only [signBit32, hm, if_pos hs, decide_eq_false_iff_not]
      omega
    have hch : check_hresult s = Result.ok () := by
      simp [check_hresult, SUCCEEDED, hs]
    rw [hsb, hch]
    exact ⟨by simp, by simp⟩
  · have hsb : signBit32 s = true := by
      simp only [signBit32, hm, if_neg hs, decide_eq_true_eq]
      omega
    have hch : check_hresult s = Result.err ⟨s⟩ := by
      simp [check_hresult, SUCCEEDED, hs]
    rw [hsb, hch]
    exact ⟨by simp, fun _ => rfl⟩

/-- Witness for C2, at the failing status `-5` (sign bit set). -/
theorem check_hresult_ok_iff_sign_bit_clear_witness :
    (-(2 ^ 31) ≤ (-5 : Int)) ∧ ((-5 : Int) < 2 ^ 31)
    ∧ (((check_hresult (-5) = Result.ok ()) ↔ signBit32 (-5) = false)
      ∧ (signBit32 (-5) = true → check_hresult (-5) = Result.err ⟨-5⟩)) :=
  ⟨by norm_num, by norm_num,
    check_hresult_ok_iff_sign_bit_clear (-5) (by norm_num) (by norm_num)⟩

/-- Claim C5: a host string containing an embedded nul code unit passed to a
`put_string!`-shaped wrapper is rejected with `E_INVALIDARG` (the `NulError`
conversion), and the native call is never made. -/
theorem put_string_nul_rejected (st : HRESULT) (s : HostStr)
    (h : s.contains 0 = true) :
    put_string st s = (Result.err ⟨E_INVALIDARG⟩, [])
    ∧ ∀ e : NulError, Error.fromNulError e = ⟨E_INVALIDARG⟩ := by
  constructor
  · unfold put_string wideCStringFromStr
    rw [if_pos h]
    rfl
  · intro e
    rfl

/-- Witness for C5, at the string `[104, 0, 105]` with an embedded nul. -/
theorem put_string_nul_rejected_witness :
    (([104, 0, 105] : HostStr).contains 0 = true)
    ∧ (put_string 0 [104, 0, 105] = (Result.err ⟨E_INVALIDARG⟩, [])
      ∧ ∀ e : NulError, Error.fromNulError e = ⟨E_INVALIDARG⟩) :=
  ⟨by decide, put_string_nul_rejected 0 [104, 0, 105] (by decide)⟩

/-- Claim C6: when the native call succeeds but the returned wide buffer does
not decode, a `get_string!`-shaped wrapper returns the generic `E_FAIL`
error and still frees the buffer with `CoTaskMemFree`; `get_current_header`
likewise frees both buffers and collapses a decode failure to `E_FAIL`. -/
theorem get_string_decode_failure_efail (st : HRESULT) (buf nbuf vbuf : List Nat)
    (hst : SUCCEEDED st = true) (hbad : utf16Valid buf = false) :
    get_string st buf = (Result.err ⟨E_FAIL⟩, true)
    ∧ (get_current_header st nbuf buf).2 = (true, true)
    ∧ (get_current_header st buf vbuf).1 = Result.err ⟨E_FAIL⟩ := by
  refine ⟨?_, ?_, ?_⟩
  · simp [get_string, check_hresult, hst, wideToString, hbad]
  · simp [get_current_header, check_hresult, hst]
  · simp only [get_current_header, check_hresult, hst, if_pos, wideToString, hbad]
    simp

/-- Witness for C6: success status `0`, undecodable buffer `[0xD800]` (a lone
high surrogate). -/
theorem get_string_decode_failure_efail_witness :
    (SUCCEEDED 0 = true) ∧ (utf16Valid [55296] = false)
    ∧ (get_string 0 [55296] = (Result.err ⟨E_FAIL⟩, true)
      ∧ (get_current_header 0 [104] [55296]).2 = (true, true)
      ∧ (get_current_header 0 [55296] [104]).1 = Result.err ⟨E_FAIL⟩) :=
  ⟨by decide, by decide,
    get_string_decode_failure_efail 0 [55296] [104] [104] (by decide) (by decide)⟩

/-- Claim C7: `to_hresult` maps every `Ok(_)` to `S_OK` and every
`Err(Error { hresult })` to exactly the carried status code. -/
theorem to_hresult_ok_and_err {α : Type} (a : α) (h : HRESULT) :
    to_hresult (Result.ok a) = S_OK ∧ to_hresult (Result.err ⟨h⟩ : Result α) = h :=
  ⟨rfl, rfl⟩

/-- Claim C8: the `get_bool!` shape yields `true` (on native success) iff the
native i32 is nonzero — any nonzero value, not only 1 — and the `put_bool!`
shape passes exactly `1` for `true` and `0` for `false`. -/
theorem bool_wrappers_spec (st v : Int) :
    ((get_bool st v = Result.ok true) ↔ (SUCCEEDED st = true ∧ v ≠ 0))
    ∧ ((get_bool st v = Result.ok false) ↔ (SUCCEEDED st = true ∧ v = 0))
    ∧ (put_bool st true).2 = 1 ∧ (put_bool st false).2 = 0 := by
  refine ⟨?_, ?_, rfl, rfl⟩ <;>
    cases hsucc : SUCCEEDED st <;>
      simp [get_bool, check_hresult, hsucc, bne_iff_ne]

/-- Witness for C8, at status `0` and the nonzero native value `7`. -/
theorem bool_wrappers_spec_witness :
    ((get_bool 0 7 = Result.ok true) ↔ (SUCCEEDED 0 = true ∧ (7 : Int) ≠ 0))
    ∧ ((get_bool 0 7 = Result.ok false) ↔ (SUCCEEDED 0 = true ∧ (7 : Int) = 0))
    ∧ (put_bool 0 true).2 = 1 ∧ (put_bool 0 false).2 = 0 :=
  bool_wrappers_spec 0 7

/-- Claim C9: `Stream::from_bytes` aborts when `SHCreateMemStream` returns a
null pointer, and wraps every non-null pointer with no additional
reference-count increment. -/
theorem stream_from_bytes_spec (p : Nat) (hp : p ≠ 0) :
    streamFromBytes 0 = none ∧ streamFromBytes p = some (p, 0) := by
  constructor
  · rfl
  · simp [streamFromBytes, comRcFromRaw, hp]

/-- Witness for C9, at the non-null pointer `5`. -/
theorem stream_from_bytes_spec_witness :
    streamFromBytes 0 = none ∧ streamFromBytes 5 = some (5, 0) :=
  stream_from_bytes_spec 5 (by decide)

/-- Claim C10: `next()` yields `None` whenever `get_has_current_header` is
anything other than `Ok(true)` (a failed status becomes silent
end-of-iteration, without calling `move_next`); and when has-current is
`Ok(true)` but `get_current_header` fails, `next()` still calls `move_next`
and yields `None`, discarding the error. -/
theorem iter_next_spec (st : IterNative) :
    (st.hasCurrentHeader ≠ Result.ok true → iterNext st = (none, false))
    ∧ (st.hasCurrentHeader = Result.ok true →
      ∀ e : Error, st.currentHeader = Result.err e → iterNext st = (none, true)) := by
  constructor
  · intro h
    simp [iterNext, h]
  · intro h e he
    simp [iterNext, h, he, Result.toOption]

/-- Witness for C10: a failed has-current call, and a failed
`get_current_header` after `Ok(true)`. -/
theorem iter_next_spec_witness :
    iterNext ⟨Result.err ⟨E_FAIL⟩, Result.ok ([], []), Result.ok true⟩ = (none, false)
    ∧ iterNext ⟨Result.ok true, Result.err ⟨E_FAIL⟩, Result.ok true⟩ = (none, true) :=
  ⟨(iter_next_spec ⟨Result.err ⟨E_FAIL⟩, Result.ok ([], []), Result.ok true⟩).1 (by decide),
    (iter_next_spec ⟨Result.ok true, Result.err ⟨E_FAIL⟩, Result.ok true⟩).2 rfl ⟨E_FAIL⟩ rfl⟩

/-- Claim C1 fails as stated: the completion handler built in
`EnvironmentBuilder::build` is not a guarded no-op on a second invocation.
The first invocation consumes the closure slot, and a second invocation hits
`take().unwrap()` on the empty slot and panics instead of returning `S_OK`. -/
theorem build_handler_second_invocation_panics :
    buildHandlerInvoke (fun _ => Result.ok ()) true 0 = some (S_OK, false, 1)
    ∧ buildHandlerInvoke (fun _ => Result.ok ()) false 0 = none :=
  ⟨rfl, rfl⟩

/-- Claim C1 (amended): only the handlers of `execute_script` and
`add_script_to_execute_on_document_created` are defensively guarded — with
the closure slot already consumed, a success status and a decodable result
string, a second invocation invokes no host closure and returns `S_OK`.
The handlers of `build`, `create_controller` and `capture_preview` instead
panic (`unwrap` of an empty slot) on any second invocation. -/
theorem one_shot_handlers_amended (host : HostStr → Result Unit)
    (s : HRESULT) (buf : List Nat)
    (hs : SUCCEEDED s = true) (hbuf : utf16Valid buf = true) :
    executeScriptHandlerInvoke host false s buf = (S_OK, false, 0)
    ∧ addScriptHandlerInvoke host false s buf = (S_OK, false, 0)
    ∧ ∀ (h2 : Result Unit → Result Unit) (r : HRESULT),
      buildHandlerInvoke h2 false r = none
      ∧ createControllerHandlerInvoke h2 false r = none
      ∧ capturePreviewHandlerInvoke h2 false r = none := by
  refine ⟨?_, ?_, fun h2 r => ⟨rfl, rfl, rfl⟩⟩ <;>
    simp [executeScriptHandlerInvoke, addScriptHandlerInvoke, check_hresult, hs,
      wideToString, hbuf, to_hresult, S_OK]

/-- Witness for the amended C1: success status `0`, decodable buffer `[104]`. -/
theorem one_shot_handlers_amended_witness :
    (SUCCEEDED 0 = true) ∧ (utf16Valid [104] = true)
    ∧ (executeScriptHandlerInvoke (fun _ => Result.ok ()) false 0 [104] = (S_OK, false, 0)
      ∧ addScriptHandlerInvoke (fun _ => Result.ok ()) false 0 [104] = (S_OK, false, 0)
      ∧ ∀ (h2 : Result Unit → Result Unit) (r : HRESULT),
        buildHandlerInvoke h2 false r = none
        ∧ createControllerHandlerInvoke h2 false r = none
        ∧ capturePreviewHandlerInvoke h2 false r = none) :=
  ⟨by decide, by decide,
    one_shot_handlers_amended (fun _ => Result.ok ()) 0 [104] (by decide) (by decide)⟩

/-- Claim C3 fails as stated: the raw OS error `65536` does not round-trip.
`HRESULT_FROM_WIN32` keeps only the low 16 bits of the code, so converting
back yields raw OS error `0`, not `65536`. -/
theorem io_error_roundtrip_fails_at_65536 :
    (errorFromIoError (IoError.raw 65536)).into_io_error = IoError.raw 0
    ∧ IoError.raw (0 : Int) ≠ IoError.raw 65536 := by
  constructor
  · decide
  · decide

/-- Claim C3 (amended): for raw OS error codes `n` with `0 < n < 2^16` (the
range Win32 error codes occupy), `Error::from(io::Error)` followed by
`into_io_error` recovers raw OS error exactly `n`; and every `Error` whose
hresult does not carry the Win32-facility bit pattern in its high 16 bits
converts to an opaque io error of kind `Other`. -/
theorem io_error_roundtrip_amended (n : Int) (hn1 : 0 < n) (hn2 : n < 2 ^ 16) :
    (errorFromIoError (IoError.raw n)).into_io_error = IoError.raw n
    ∧ ∀ e : Error,
      i32land e.hresult (i32ofU32 4294901760) ≠ MAKE_HRESULT SEVERITY_ERROR FACILITY_WIN32 0 →
      Error.into_io_error e = IoError.other e := by
  constructor
  · obtain ⟨m, rfl⟩ : ∃ m : Nat, (m : Int) = n :=
      ⟨n.toNat, Int.toNat_of_nonneg (le_of_lt hn1)⟩
    have hm1 : 0 < m := by exact_mod_cast hn1
    have hm2 : m < 65536 := by
      norm_num at hn2
      exact_mod_cast hn2
    have hu : u32ofI32 (m : Int) = m := by
      unfold u32ofI32
      omega
    have hshift : (7 <<< 16 : Nat) = 458752 := by decide
    have hv : ((m &&& 65535 ||| 7 <<< 16) ||| 2147483648) = 2147942400 + m := by
      rw [and_mask16_of_lt m hm2, hshift, Nat.or_assoc]
      have hc : (458752 ||| 2147483648 : Nat) = 2147942400 := by decide
      rw [hc, Nat.or_comm]
      exact or_win32_pattern_eq_add m hm2
    have hfw : HRESULT_FROM_WIN32 m = ((2147942400 + m : Nat) : Int) - 4294967296 := by
      unfold HRESULT_FROM_WIN32
      rw [if_neg, hv]
      · unfold i32ofU32
        rw [if_neg]
        · norm_num
        · push_cast
          omega
      · unfold i32ofU32
        rw [if_pos]
        · omega
        · omega
    have hx : errorFromIoError (IoError.raw (m : Int))
        = ⟨((2147942400 + m : Nat) : Int) - 4294967296⟩ := by
      show Error.new (HRESULT_FROM_WIN32 (u32ofI32 (m : Int)))
        = (⟨((2147942400 + m : Nat) : Int) - 4294967296⟩ : Error)
      rw [hu, hfw]
      rfl
    have hux : u32ofI32 (((2147942400 + m : Nat) : Int) - 4294967296) = 2147942400 + m := by
      unfold u32ofI32
      push_cast
      omega
    have hmask : u32ofI32 (i32ofU32 4294901760) = 4294901760 := by decide
    have hland : (2147942400 + m) &&& 4294901760 = 2147942400 := by
      rw [← or_win32_pattern_eq_add m hm2, Nat.and_distrib_right, and_high_mask_eq_zero m hm2]
      decide
    have hcode : (2147942400 + m) &&& 65535 = m := by
      rw [← or_win32_pattern_eq_add m hm2, Nat.and_distrib_right, and_mask16_of_lt m hm2]
      have hz2 : (2147942400 &&& 65535 : Nat) = 0 := by decide
      rw [hz2]
      exact Nat.zero_or m
    rw [hx]
    unfold Error.into_io_error i32land HRESULT_CODE
    rw [hux, hmask, hland]
    have hcond : i32ofU32 2147942400 = MAKE_HRESULT SEVERITY_ERROR FACILITY_WIN32 0 := by decide
    rw [if_pos hcond, hcode]
    rfl
  · intro e he
    unfold Error.into_io_error
    rw [if_neg he]

/-- Witness for the amended C3, at the raw OS error code `5`. -/
theorem io_error_roundtrip_amended_witness :
    ((0 : Int) < 5) ∧ ((5 : Int) < 2 ^ 16)
    ∧ ((errorFromIoError (IoError.raw 5)).into_io_error = IoError.raw 5
      ∧ ∀ e : Error,
        i32land e.hresult (i32ofU32 4294901760) ≠ MAKE_HRESULT SEVERITY_ERROR FACILITY_WIN32 0 →
        Error.into_io_error e = IoError.other e) :=
  ⟨by norm_num, by norm_num, io_error_roundtrip_amended 5 (by norm_num) (by norm_num)⟩

end Webview2
